import Mathlib

/-!
Verification of the resume-hub merge/regeneration core against its
natural-language specification.  The definitions below are shallow
embeddings of the TypeScript source: the Resume Document Store reducer
(`handleUpdate` in ResumeBuilder.tsx), the polish client (`handlePolish`),
the template-acquisition cache and the document generator
(`scrapeTemplate`, `initializeLatex`, `updateLatexSection` in the fixed
PDFPreview component), and the per-section add handlers.  State updates
(`setX`, refs) are modelled as record updates threaded sequentially;
network calls are parametrised by explicit fetch outcomes.
-/

namespace Resume

/-- Name data: `{ firstName, lastName }`. -/
structure Name where
  firstName : String
  lastName : String
deriving DecidableEq, Repr

/-- AboutMe data: `{ description, polishedDescription }` (both initialised to `''`). -/
structure AboutMe where
  description : String
  polishedDescription : String
deriving DecidableEq, Repr

/-- Education entry. -/
structure Education where
  id : String
  degree : String
  institution : String
  startDate : String
  endDate : String
  description : String
  polishedDescription : Option String
deriving DecidableEq, Repr

/-- Experience entry. -/
structure Experience where
  id : String
  title : String
  company : String
  startDate : String
  endDate : String
  description : String
  keywords : List String
  polishedDescription : Option String
deriving DecidableEq, Repr

/-- Contact entry. -/
structure Contact where
  id : String
  type : String
  value : String
deriving DecidableEq, Repr

/-- Skill entry. -/
structure Skill where
  id : String
  skill : String
deriving DecidableEq, Repr

/-- Custom section entry. -/
structure CustomSection where
  id : String
  title : String
  content : String
deriving DecidableEq, Repr

/-- The resume document.  The singleton sections are `Option`-valued because
the reducer assigns `update.content` to them wholesale, and `content` is
`null` for a delete message. -/
structure ResumeData where
  name : Option Name
  aboutMe : Option AboutMe
  education : List Education
  experience : List Experience
  contact : List Contact
  skills : List Skill
  customSections : List CustomSection
deriving DecidableEq, Repr

/-- The `content` field of an UpdateMessage (`any` in TS; `null` for delete). -/
inductive Content where
  | null
  | nameC (n : Name)
  | aboutC (a : AboutMe)
  | eduC (e : Education)
  | expC (e : Experience)
  | contactC (c : Contact)
  | skillC (s : Skill)
  | customC (c : CustomSection)
deriving DecidableEq, Repr

def Content.asName : Content → Option Name
  | .nameC n => some n
  | _ => none

def Content.asAbout : Content → Option AboutMe
  | .aboutC a => some a
  | _ => none

def Content.asEdu : Content → Option Education
  | .eduC e => some e
  | _ => none

def Content.asExp : Content → Option Experience
  | .expC e => some e
  | _ => none

def Content.asContact : Content → Option Contact
  | .contactC c => some c
  | _ => none

def Content.asSkill : Content → Option Skill
  | .skillC s => some s
  | _ => none

def Content.asCustom : Content → Option CustomSection
  | .customC c => some c
  | _ => none

/-- UpdateMessage `{section, entryId, changeType, content}` (the TS field
`section` is a Lean keyword, hence `sectionName`). -/
structure UpdateMessage where
  sectionName : String
  entryId : String
  changeType : String
  content : Content
deriving DecidableEq, Repr

/-- SubmitTrigger `{section, entryId, changeType, timestamp}`. -/
structure SubmitTrigger where
  sectionName : String
  entryId : String
  changeType : String
  timestamp : Nat
deriving DecidableEq, Repr

/-- One arm of the `handleUpdate` switch for a list-valued section
(ResumeBuilder.tsx:50-57 and its four identical siblings): `add` pushes the
content, `update` replaces at `findIndex(e => e.id === entryId)` when found,
`delete` filters the id out.  `content` carries an entry for add/update and
is `null` only for delete. -/
def applyList {α : Type} (getId : α → String) (l : List α)
    (changeType : String) (entryId : String) (c : Option α) : List α :=
  if changeType = "add" then
    match c with
    | some a => l ++ [a]
    | none => l
  else if changeType = "update" then
    match l.findIdx? (fun e => getId e = entryId) with
    | some i =>
      match c with
      | some a => l.set i a
      | none => l
    | none => l
  else if changeType = "delete" then
    l.filter (fun e => getId e ≠ entryId)
  else l

/-- The Resume Document Store reducer (`handleUpdate`, ResumeBuilder.tsx:38-111).
Singleton sections are assigned the message content wholesale; each
list-valued arm is an instance of `applyList`; an unknown section falls
through the switch unchanged. -/
def handleUpdate (d : ResumeData) (u : UpdateMessage) : ResumeData :=
  match u.sectionName with
  | "name" => { d with name := u.content.asName }
  | "aboutMe" => { d with aboutMe := u.content.asAbout }
  | "education" =>
    { d with education := applyList (fun e => e.id) d.education u.changeType u.entryId u.content.asEdu }
  | "experience" =>
    { d with experience := applyList (fun e => e.id) d.experience u.changeType u.entryId u.content.asExp }
  | "contact" =>
    { d with contact := applyList (fun c => c.id) d.contact u.changeType u.entryId u.content.asContact }
  | "skills" =>
    { d with skills := applyList (fun s => s.id) d.skills u.changeType u.entryId u.content.asSkill }
  | "customSections" =>
    { d with customSections := applyList (fun c => c.id) d.customSections u.changeType u.entryId u.content.asCustom }
  | _ => d

/-- Replaying a sequence of update messages through the store. -/
def replayUpdates (d : ResumeData) (msgs : List UpdateMessage) : ResumeData :=
  msgs.foldl handleUpdate d

/-- The initial document (ResumeBuilder.tsx:16-24). -/
def initialData : ResumeData :=
  { name := some { firstName := "", lastName := "" }
    aboutMe := some { description := "", polishedDescription := "" }
    education := []
    experience := []
    contact := []
    skills := []
    customSections := [] }

/-! ### Network outcomes -/

/-- Outcome of one `fetch`: either the promise rejects (`netError`) or a
response arrives with an `ok` flag, a status code and a parsed body. -/
inductive FetchOutcome (α : Type) where
  | netError (msg : String)
  | response (ok : Bool) (status : Nat) (body : α)
deriving DecidableEq, Repr

/-- JS `x || d` on an optional string field: the default is used when the
field is absent, null, or the empty string (falsy). -/
def jsOr (s : Option String) (d : String) : String :=
  match s with
  | some e => if e = "" then d else e
  | none => d

/-! ### Content Polishing Client (`handlePolish`, ResumeBuilder.tsx:185-266) -/

/-- A value found under a `content` key: either a string or an object whose
keys (including a once-more-nested `content`) are string-valued — the
normalizer never probes deeper than two `content` levels, so this depth
suffices for every envelope it can distinguish. -/
inductive PVLeaf where
  | str (s : String)
  | obj (content : Option String) (polishedDescription : Option String)
      (description : Option String) (summary : Option String) (text : Option String)
deriving DecidableEq, Repr

/-- A polish-response value as probed by the normalizer: either a string or
an object carrying the keys the code reads.  Key values other than
`content` are string-valued in every envelope the capability produces;
an absent key is `none`. -/
inductive PV where
  | str (s : String)
  | obj (content : Option PVLeaf) (polishedDescription : Option String)
      (description : Option String) (summary : Option String) (text : Option String)
deriving DecidableEq, Repr

/-- A nested value, viewed as a top-level one. -/
def PVLeaf.toPV : PVLeaf → PV
  | .str s => PV.str s
  | .obj c pd d s t => PV.obj (c.map PVLeaf.str) pd d s t

/-- The parsed polish response body `data`. -/
structure PolishResp where
  success : Bool
  message : Option String
  improvedContent : Option PV
  content : Option PV
  polishedDescription : Option String
  description : Option String
  summary : Option String
  text : Option String
deriving DecidableEq, Repr

/-- `data.improvedContent ?? data.content ?? data` (ResumeBuilder.tsx:199). -/
def envelopeOf (r : PolishResp) : PV :=
  match r.improvedContent with
  | some v => v
  | none =>
    match r.content with
    | some v => v
    | none => PV.obj none r.polishedDescription r.description r.summary r.text

/-- `envelope && typeof envelope === 'object' && 'content' in envelope ?
envelope.content : envelope` (ResumeBuilder.tsx:200-202). -/
def normalizeEnvelope (v : PV) : PV :=
  match v with
  | PV.obj (some c) _ _ _ _ => c.toPV
  | _ => v

/-- `obj?.polishedDescription ?? obj?.description ?? obj?.summary ??
obj?.text ?? ''` (ResumeBuilder.tsx:204-205): the first PRESENT key wins
(`??` skips only null/undefined, not the empty string); property access on
a string value yields undefined throughout, hence `''`. -/
def getImprovedText (v : PV) : String :=
  match v with
  | PV.str _ => ""
  | PV.obj _ pd d s t => (((pd.or d).or s).or t).getD ""

/-- The improved text the client extracts from a response body. -/
def improvedTextOf (r : PolishResp) : String :=
  getImprovedText (normalizeEnvelope (envelopeOf r))

/-- `normalized?.content ?? improvedText` for the customSections arm
(ResumeBuilder.tsx:239); the capability's `content` values are strings. -/
def customImproved (normalized : PV) (improvedText : String) : String :=
  match normalized with
  | PV.obj (some (PVLeaf.str s)) _ _ _ _ => s
  | _ => improvedText

/-- What one polish call produces: the (possibly mutated) document, whether
the catch block ran (the operation errored), and the auto-emitted submit
trigger, if any. -/
structure PolishResult where
  doc : ResumeData
  errored : Bool
  trigger : Option SubmitTrigger
deriving DecidableEq, Repr

/-- The polish flow (`handlePolish`, ResumeBuilder.tsx:185-266): throw on a
rejected fetch, a non-ok status or `success:false`; otherwise normalize the
envelope, apply the per-section merge, and auto-emit a SubmitTrigger.
`t` is the `Date.now()` stamp of the trigger.  A null aboutMe target is a
no-op here; the UI never produces one (in JS the property write would
throw into the same catch). -/
def handlePolish (d : ResumeData) (sectionName entryId : String) (t : Nat)
    (o : FetchOutcome PolishResp) : PolishResult :=
  match o with
  | .netError _ => ⟨d, true, none⟩
  | .response ok _ body =>
    if ok = false then ⟨d, true, none⟩
    else if body.success = false then ⟨d, true, none⟩
    else
      let normalized := normalizeEnvelope (envelopeOf body)
      let improvedText := getImprovedText normalized
      let d2 :=
        match sectionName with
        | "aboutMe" =>
          if improvedText ≠ "" then
            match d.aboutMe with
            | some _ =>
              { d with aboutMe := some { polishedDescription := improvedText, description := improvedText } }
            | none => d
          else d
        | "education" =>
          match d.education.findIdx? (fun e => e.id = entryId) with
          | some i =>
            match d.education[i]? with
            | some e =>
              if improvedText ≠ "" then
                { d with education :=
                    d.education.set i { e with polishedDescription := some improvedText, description := improvedText } }
              else d
            | none => d
          | none => d
        | "experience" =>
          match d.experience.findIdx? (fun e => e.id = entryId) with
          | some i =>
            match d.experience[i]? with
            | some e =>
              if improvedText ≠ "" then
                { d with experience :=
                    d.experience.set i { e with polishedDescription := some improvedText, description := improvedText } }
              else d
            | none => d
          | none => d
        | "customSections" =>
          match d.customSections.findIdx? (fun c => c.id = entryId) with
          | some i =>
            match d.customSections[i]? with
            | some c0 =>
              let improvedContentText := customImproved normalized improvedText
              if improvedContentText ≠ "" then
                { d with customSections := d.customSections.set i { c0 with content := improvedContentText } }
              else d
            | none => d
          | none => d
        | _ => d
      ⟨d2, false, some ⟨sectionName, entryId, "update", t⟩⟩

/-! ### Document Generator and Template Acquisition (PDFPreview, fixed version) -/

/-- The PDFPreview component state that the generation flow reads and
writes: `latexCode`, `isUpdating`, `error`, the compile-stats counter,
`hasGeneratedPreview`, the template-acquisition cache flag, and the
`isInitializedRef` initialization flag. -/
structure GenState where
  latexCode : String
  isUpdating : Bool
  error : Option String
  compileUpdates : Nat
  hasGeneratedPreview : Bool
  isTemplateScraped : Bool
  isScrapingTemplate : Bool
  isInitialized : Bool
deriving DecidableEq, Repr

/-- The component state on mount. -/
def initialGenState : GenState :=
  { latexCode := ""
    isUpdating := false
    error := none
    compileUpdates := 0
    hasGeneratedPreview := false
    isTemplateScraped := false
    isScrapingTemplate := false
    isInitialized := false }

/-- Body of a `/api/template/scrape` response. -/
structure ScrapeBody where
  success : Bool
  error : Option String
deriving DecidableEq, Repr

/-- Body of a `/api/latex-update` response; `latexCode = ""` models an
absent or empty (falsy) `latexCode` field, and `errorText` is the raw
`response.text()` used for non-ok statuses. -/
structure LatexBody where
  success : Bool
  latexCode : String
  error : Option String
  errorText : String
deriving DecidableEq, Repr

/-- The section data extracted by the `updateLatexSection` switch
(PDFPreview:134-153); an unknown section yields null. -/
inductive SectionData where
  | aboutMeD (a : Option AboutMe)
  | educationD (l : List Education)
  | experienceD (l : List Experience)
  | skillsD (l : List Skill)
  | customD (l : List CustomSection)
  | nullD
deriving DecidableEq, Repr

/-- The network requests a generation flow can issue, in order. -/
inductive Eff where
  | scrapeReq
  | headerReq (name : Option Name) (contact : List Contact)
  | sectionReq (sectionName : String) (action : String) (entry : SectionData)
deriving DecidableEq, Repr

/-- Template Acquisition (`scrapeTemplate`, PDFPreview:33-54): cached via
`isTemplateScraped`; a failure (rejected fetch, non-ok status, or
`success:false`) sets `error` and leaves the cache flag unset. -/
def scrapeTemplate (st : GenState) (o : FetchOutcome ScrapeBody) : GenState × List Eff :=
  if st.isTemplateScraped then (st, [])
  else
    let st1 := { st with isScrapingTemplate := true }
    match o with
    | .netError m =>
      ({ st1 with error := some m, isScrapingTemplate := false }, [Eff.scrapeReq])
    | .response ok status body =>
      if ok = false then
        ({ st1 with error := some ("HTTP " ++ toString status), isScrapingTemplate := false },
          [Eff.scrapeReq])
      else if body.success then
        ({ st1 with isTemplateScraped := true, isScrapingTemplate := false }, [Eff.scrapeReq])
      else
        ({ st1 with
            error := some (jsOr body.error "Template scraping failed"),
            isScrapingTemplate := false }, [Eff.scrapeReq])

/-- `hasData` (PDFPreview:239-250).  A null `name`/`aboutMe` contributes no
data (the UI never produces one; in JS the access would throw). -/
def hasData (d : ResumeData) : Bool :=
  (match d.name with
    | some n => n.firstName ≠ "" || n.lastName ≠ ""
    | none => false)
  || (match d.aboutMe with
    | some a => a.description ≠ ""
    | none => false)
  || d.contact.length > 0
  || d.education.length > 0
  || d.experience.length > 0
  || d.skills.length > 0
  || d.customSections.length > 0

/-- The header payload `{name, contact}` sent by `initializeLatex`. -/
def headerReqOf (d : ResumeData) : Eff :=
  Eff.headerReq d.name d.contact

/-- Full/header generation (`initializeLatex`, PDFPreview:56-106): bails out
when there is no data or the template is not scraped; otherwise posts the
header payload, and on success installs the source and sets the
initialization flag; any failure is caught and surfaced via `error`. -/
def initializeLatex (d : ResumeData) (st : GenState)
    (oScrape : FetchOutcome ScrapeBody) (oHeader : FetchOutcome LatexBody) :
    GenState × List Eff :=
  if !hasData d || !st.isTemplateScraped then (st, [])
  else
    let st1 := { st with isUpdating := true, error := none }
    let p := scrapeTemplate st1 oScrape
    let st2 := p.1
    match oHeader with
    | .netError m =>
      ({ st2 with error := some m, isUpdating := false }, p.2 ++ [headerReqOf d])
    | .response ok status body =>
      if ok = false then
        ({ st2 with
            error := some ("HTTP " ++ toString status ++ ": " ++ body.errorText),
            isUpdating := false }, p.2 ++ [headerReqOf d])
      else if body.success && body.latexCode ≠ "" then
        ({ st2 with
            latexCode := body.latexCode,
            isInitialized := true,
            hasGeneratedPreview := true,
            isUpdating := false }, p.2 ++ [headerReqOf d])
      else
        ({ st2 with
            error := some (jsOr body.error "No LaTeX code returned from header update"),
            isUpdating := false }, p.2 ++ [headerReqOf d])

/-- The `switch (sectionName)` extracting section data (PDFPreview:134-153). -/
def extractSection (d : ResumeData) (sectionName : String) : SectionData :=
  match sectionName with
  | "aboutMe" => SectionData.aboutMeD d.aboutMe
  | "education" => SectionData.educationD d.education
  | "experience" => SectionData.experienceD d.experience
  | "skills" => SectionData.skillsD d.skills
  | "customSections" => SectionData.customD d.customSections
  | _ => SectionData.nullD

/-- Section-scope generation (`updateLatexSection`, PDFPreview:108-202):
scrape first if not yet scraped; while uninitialized, redirect to
`initializeLatex` and return; otherwise post the section payload, and on
any failure fall back to `initializeLatex`.  `oScrape`/`oSection` answer
this call's own fetches; `oiScrape`/`oiHeader` answer the fetches of the
`initializeLatex` invocation, if it happens. -/
def updateLatexSection (d : ResumeData) (st : GenState) (u : SubmitTrigger)
    (oScrape : FetchOutcome ScrapeBody) (oSection : FetchOutcome LatexBody)
    (oiScrape : FetchOutcome ScrapeBody) (oiHeader : FetchOutcome LatexBody) :
    GenState × List Eff :=
  let p0 := if !st.isTemplateScraped then scrapeTemplate st oScrape else (st, [])
  let st0 := p0.1
  if !st0.isInitialized then
    let p1 := initializeLatex d st0 oiScrape oiHeader
    (p1.1, p0.2 ++ p1.2)
  else
    let st1 := { st0 with isUpdating := true, error := none }
    let req := Eff.sectionReq u.sectionName u.changeType (extractSection d u.sectionName)
    match oSection with
    | .netError _ =>
      let p2 := initializeLatex d st1 oiScrape oiHeader
      ({ p2.1 with isUpdating := false }, p0.2 ++ [req] ++ p2.2)
    | .response ok _ body =>
      if ok = false then
        let p2 := initializeLatex d st1 oiScrape oiHeader
        ({ p2.1 with isUpdating := false }, p0.2 ++ [req] ++ p2.2)
      else if body.success && body.latexCode ≠ "" then
        ({ st1 with
            latexCode := body.latexCode,
            compileUpdates := st1.compileUpdates + 1,
            isUpdating := false }, p0.2 ++ [req])
      else
        let p2 := initializeLatex d st1 oiScrape oiHeader
        ({ p2.1 with isUpdating := false }, p0.2 ++ [req] ++ p2.2)

/-- A scrape outcome that the code treats as a cache-installing success. -/
def scrapeOk (o : FetchOutcome ScrapeBody) : Bool :=
  match o with
  | .response true _ body => body.success
  | _ => false

/-- A latex-update outcome that the code treats as a failure (rejected
fetch, non-ok status, `success:false`, or missing/empty `latexCode`). -/
def latexFetchFails (o : FetchOutcome LatexBody) : Bool :=
  match o with
  | .netError _ => true
  | .response ok _ body => !ok || !body.success || body.latexCode = ""

/-- The error message `initializeLatex` surfaces when its header fetch
fails with the given outcome. -/
def headerFailMsg (o : FetchOutcome LatexBody) : String :=
  match o with
  | .netError m => m
  | .response ok status body =>
    if !ok then "HTTP " ++ toString status ++ ": " ++ body.errorText
    else jsOr body.error "No LaTeX code returned from header update"

def isSectionReq : Eff → Bool
  | Eff.sectionReq .. => true
  | _ => false

def isHeaderReq : Eff → Bool
  | Eff.headerReq .. => true
  | _ => false

def isScrapeReq : Eff → Bool
  | Eff.scrapeReq => true
  | _ => false

def countHeader (tr : List Eff) : Nat := (tr.filter isHeaderReq).length

def countSection (tr : List Eff) : Nat := (tr.filter isSectionReq).length

def countScrape (tr : List Eff) : Nat := (tr.filter isScrapeReq).length

/-! ### Entry creation (section components) -/

/-- The id minted for a new entry: a fixed section prefix followed by the
decimal rendering of `Date.now()` (EducationSection.tsx:45,
SkillsSection.tsx:21, and siblings). -/
def genId (pfx : String) (t : Nat) : String := pfx ++ Nat.repr t

/-- The draft a user fills before clicking Add Education. -/
structure EduDraft where
  degree : String
  institution : String
  startDate : String
  endDate : String
  description : String
deriving DecidableEq, Repr

/-- `handleAdd` of EducationSection.tsx:42-55: requires a non-empty degree
and institution, mints an `edu_`-prefixed id from the current time `t`, and
emits an add UpdateMessage; otherwise no message is sent. -/
def handleAddEducation (draft : EduDraft) (t : Nat) : Option UpdateMessage :=
  if draft.degree ≠ "" && draft.institution ≠ "" then
    some
      { sectionName := "education"
        entryId := genId "edu_" t
        changeType := "add"
        content := Content.eduC
          { id := genId "edu_" t
            degree := draft.degree
            institution := draft.institution
            startDate := draft.startDate
            endDate := draft.endDate
            description := draft.description
            polishedDescription := none } }
  else none

/-- `handleAdd` of SkillsSection.tsx:18-35: requires a non-blank skill that
is not already present (case-insensitively), mints a `skill_`-prefixed id,
and emits an add UpdateMessage. -/
def handleAddSkill (data : List Skill) (newSkill : String) (t : Nat) : Option UpdateMessage :=
  if newSkill.trim ≠ "" && !(data.any (fun s => s.skill.toLower = newSkill.trim.toLower)) then
    some
      { sectionName := "skills"
        entryId := genId "skill_" t
        changeType := "add"
        content := Content.skillC { id := genId "skill_" t, skill := newSkill.trim } }
  else none

/-- A session of Add Education clicks: each event is a draft plus the
`Date.now()` value at the click; accepted adds flow through the store's
education arm. -/
def eduAddSession (init : List Education) (events : List (EduDraft × Nat)) : List Education :=
  events.foldl
    (fun acc ev =>
      match handleAddEducation ev.1 ev.2 with
      | some m => applyList (fun e => e.id) acc m.changeType m.entryId m.content.asEdu
      | none => acc)
    init

/-- A session of Add Skill clicks; the duplicate guard reads the current
list. -/
def skillAddSession (init : List Skill) (events : List (String × Nat)) : List Skill :=
  events.foldl
    (fun acc ev =>
      match handleAddSkill acc ev.1 ev.2 with
      | some m => applyList (fun s => s.id) acc m.changeType m.entryId m.content.asSkill
      | none => acc)
    init

/-! ### Decimal rendering is injective

`Nat.repr` renders via `Nat.toDigitsCore`; reading the digits back with a
positional accumulator recovers the number, so distinct timestamps give
distinct minted ids. -/

/-- Value of a decimal digit character. -/
def decDigitVal (c : Char) : Nat := c.toNat - 48

/-- Positional value of a digit string. -/
def decValue (l : List Char) : Nat := l.foldl (fun a c => 10 * a + decDigitVal c) 0

theorem toDigitsCore_append (f n : Nat) (acc : List Char) :
    Nat.toDigitsCore 10 f n acc = Nat.toDigitsCore 10 f n [] ++ acc := by
  induction f generalizing n acc with
  | zero => simp [Nat.toDigitsCore]
  | succ f ih =>
    simp only [Nat.toDigitsCore]
    by_cases h : n / 10 = 0
    · simp [h]
    · simp only [h, if_false]
      rw [ih (n / 10) (Nat.digitChar (n % 10) :: acc), ih (n / 10) [Nat.digitChar (n % 10)]]
      simp

theorem decValue_append_singleton (l : List Char) (c : Char) :
    decValue (l ++ [c]) = 10 * decValue l + decDigitVal c := by
  simp [decValue, List.foldl_append]

theorem decDigitVal_digitChar (d : Nat) (hd : d < 10) :
    decDigitVal (Nat.digitChar d) = d := by
  interval_cases d <;> decide

theorem decValue_toDigitsCore (f : Nat) :
    ∀ n : Nat, n < f → decValue (Nat.toDigitsCore 10 f n []) = n := by
  induction f with
  | zero => intro n hn; omega
  | succ f ih =>
    intro n hn
    simp only [Nat.toDigitsCore]
    by_cases h : n / 10 = 0
    · have hlt : n < 10 := by omega
      simp only [h, if_true]
      have : decValue [Nat.digitChar (n % 10)] = n % 10 := by
        simpa [decValue] using decDigitVal_digitChar (n % 10) (Nat.mod_lt _ (by norm_num))
      rw [this, Nat.mod_eq_of_lt hlt]
    · simp only [h, if_false]
      rw [toDigitsCore_append f (n / 10) [Nat.digitChar (n % 10)]]
      rw [decValue_append_singleton]
      have hdiv : n / 10 < f := by
        have h1 : n / 10 < n := Nat.div_lt_self (by omega) (by norm_num)
        omega
      rw [ih (n / 10) hdiv, decDigitVal_digitChar (n % 10) (Nat.mod_lt _ (by norm_num))]
      omega

theorem decValue_repr (n : Nat) : decValue (Nat.repr n).data = n := by
  have : (Nat.repr n).data = Nat.toDigitsCore 10 (n + 1) n [] := rfl
  rw [this]
  exact decValue_toDigitsCore (n + 1) n (Nat.lt_succ_self n)

theorem repr_injective {a b : Nat} (h : Nat.repr a = Nat.repr b) : a = b := by
  have := congrArg (fun s => decValue s.data) h
  simpa [decValue_repr] using this

theorem genId_injective (pfx : String) {a b : Nat} (h : genId pfx a = genId pfx b) : a = b := by
  apply repr_injective
  apply String.ext
  have hd := congrArg String.data h
  simp only [genId, String.data_append] at hd
  exact List.append_cancel_left hd

/-! ### Store lemmas -/

theorem findIdx?_first {α : Type} (p : α → Bool) (l₁ l₂ : List α) (e : α)
    (h1 : ∀ x ∈ l₁, p x = false) (he : p e = true) :
    (l₁ ++ e :: l₂).findIdx? p = some l₁.length := by
  have h1n : l₁.findIdx? p = none := List.findIdx?_eq_none_iff.mpr h1
  simp [List.findIdx?_append, h1n, List.findIdx?_cons, he]

theorem set_append_length {α : Type} (l₁ l₂ : List α) (e a : α) :
    (l₁ ++ e :: l₂).set l₁.length a = l₁ ++ a :: l₂ := by
  rw [List.set_append_right _ _ (Nat.le_refl _)]
  simp

theorem applyList_add {α : Type} (getId : α → String) (l : List α) (eid : String) (a : α) :
    applyList getId l "add" eid (some a) = l ++ [a] := by
  simp [applyList]

theorem applyList_update_found {α : Type} (getId : α → String) (l₁ l₂ : List α) (e a : α)
    (eid : String) (h1 : ∀ x ∈ l₁, getId x ≠ eid) (he : getId e = eid) :
    applyList getId (l₁ ++ e :: l₂) "update" eid (some a) = l₁ ++ a :: l₂ := by
  have hf : (l₁ ++ e :: l₂).findIdx? (fun x => getId x = eid) = some l₁.length :=
    findIdx?_first _ l₁ l₂ e (fun x hx => decide_eq_false (h1 x hx)) (decide_eq_true he)
  simp only [applyList, hf, if_neg (show ¬("update" = "add") by decide), if_pos rfl]
  exact set_append_length l₁ l₂ e a

theorem applyList_update_noMatch {α : Type} (getId : α → String) (l : List α)
    (eid : String) (c : Option α) (h : ∀ x ∈ l, getId x ≠ eid) :
    applyList getId l "update" eid c = l := by
  have hf : l.findIdx? (fun x => getId x = eid) = none :=
    List.findIdx?_eq_none_iff.mpr (fun x hx => decide_eq_false (h x hx))
  simp [applyList, hf]

theorem applyList_delete_found {α : Type} (getId : α → String) (l₁ l₂ : List α) (e : α)
    (eid : String) (c : Option α) (h1 : ∀ x ∈ l₁, getId x ≠ eid) (he : getId e = eid)
    (h2 : ∀ x ∈ l₂, getId x ≠ eid) :
    applyList getId (l₁ ++ e :: l₂) "delete" eid c = l₁ ++ l₂ := by
  simp only [applyList, if_neg (show ¬("delete" = "add") by decide),
    if_neg (show ¬("delete" = "update") by decide), if_pos rfl]
  rw [List.filter_append, List.filter_cons]
  have k1 : l₁.filter (fun x => getId x ≠ eid) = l₁ :=
    List.filter_eq_self.mpr (fun x hx => decide_eq_true (h1 x hx))
  have k2 : l₂.filter (fun x => getId x ≠ eid) = l₂ :=
    List.filter_eq_self.mpr (fun x hx => decide_eq_true (h2 x hx))
  have ke : (decide (getId e ≠ eid)) = false :=
    decide_eq_false (fun hne => hne he)
  rw [ke, k1, k2]
  simp

theorem applyList_delete_noMatch {α : Type} (getId : α → String) (l : List α)
    (eid : String) (c : Option α) (h : ∀ x ∈ l, getId x ≠ eid) :
    applyList getId l "delete" eid c = l := by
  simp only [applyList, if_neg (show ¬("delete" = "add") by decide),
    if_neg (show ¬("delete" = "update") by decide), if_pos rfl]
  exact List.filter_eq_self.mpr (fun x hx => decide_eq_true (h x hx))

/-- The education projection of one store step. -/
def eduStep (l : List Education) (u : UpdateMessage) : List Education :=
  if u.sectionName = "education" then
    applyList (fun e => e.id) l u.changeType u.entryId u.content.asEdu
  else l

/-- The experience projection of one store step. -/
def expStep (l : List Experience) (u : UpdateMessage) : List Experience :=
  if u.sectionName = "experience" then
    applyList (fun e => e.id) l u.changeType u.entryId u.content.asExp
  else l

/-- The contact projection of one store step. -/
def contactStep (l : List Contact) (u : UpdateMessage) : List Contact :=
  if u.sectionName = "contact" then
    applyList (fun c => c.id) l u.changeType u.entryId u.content.asContact
  else l

/-- The skills projection of one store step. -/
def skillStep (l : List Skill) (u : UpdateMessage) : List Skill :=
  if u.sectionName = "skills" then
    applyList (fun s => s.id) l u.changeType u.entryId u.content.asSkill
  else l

/-- The customSections projection of one store step. -/
def customStep (l : List CustomSection) (u : UpdateMessage) : List CustomSection :=
  if u.sectionName = "customSections" then
    applyList (fun c => c.id) l u.changeType u.entryId u.content.asCustom
  else l

theorem handleUpdate_education (d : ResumeData) (u : UpdateMessage) :
    (handleUpdate d u).education = eduStep d.education u := by
  unfold handleUpdate eduStep
  split <;> simp_all

theorem handleUpdate_experience (d : ResumeData) (u : UpdateMessage) :
    (handleUpdate d u).experience = expStep d.experience u := by
  unfold handleUpdate expStep
  split <;> simp_all

theorem handleUpdate_contact (d : ResumeData) (u : UpdateMessage) :
    (handleUpdate d u).contact = contactStep d.contact u := by
  unfold handleUpdate contactStep
  split <;> simp_all

theorem handleUpdate_skills (d : ResumeData) (u : UpdateMessage) :
    (handleUpdate d u).skills = skillStep d.skills u := by
  unfold handleUpdate skillStep
  split <;> simp_all

theorem handleUpdate_customSections (d : ResumeData) (u : UpdateMessage) :
    (handleUpdate d u).customSections = customStep d.customSections u := by
  unfold handleUpdate customStep
  split <;> simp_all

theorem replay_education (msgs : List UpdateMessage) (d : ResumeData) :
    (replayUpdates d msgs).education = msgs.foldl eduStep d.education := by
  induction msgs generalizing d with
  | nil => rfl
  | cons m ms ih =>
    show (replayUpdates (handleUpdate d m) ms).education = ms.foldl eduStep (eduStep d.education m)
    rw [← handleUpdate_education]
    exact ih _

theorem replay_experience (msgs : List UpdateMessage) (d : ResumeData) :
    (replayUpdates d msgs).experience = msgs.foldl expStep d.experience := by
  induction msgs generalizing d with
  | nil => rfl
  | cons m ms ih =>
    show (replayUpdates (handleUpdate d m) ms).experience = ms.foldl expStep (expStep d.experience m)
    rw [← handleUpdate_experience]
    exact ih _

theorem replay_contact (msgs : List UpdateMessage) (d : ResumeData) :
    (replayUpdates d msgs).contact = msgs.foldl contactStep d.contact := by
  induction msgs generalizing d with
  | nil => rfl
  | cons m ms ih =>
    show (replayUpdates (handleUpdate d m) ms).contact = ms.foldl contactStep (contactStep d.contact m)
    rw [← handleUpdate_contact]
    exact ih _

theorem replay_skills (msgs : List UpdateMessage) (d : ResumeData) :
    (replayUpdates d msgs).skills = msgs.foldl skillStep d.skills := by
  induction msgs generalizing d with
  | nil => rfl
  | cons m ms ih =>
    show (replayUpdates (handleUpdate d m) ms).skills = ms.foldl skillStep (skillStep d.skills m)
    rw [← handleUpdate_skills]
    exact ih _

theorem replay_customSections (msgs : List UpdateMessage) (d : ResumeData) :
    (replayUpdates d msgs).customSections = msgs.foldl customStep d.customSections := by
  induction msgs generalizing d with
  | nil => rfl
  | cons m ms ih =>
    show (replayUpdates (handleUpdate d m) ms).customSections
        = ms.foldl customStep (customStep d.customSections m)
    rw [← handleUpdate_customSections]
    exact ih _

/-! ### Claim theorems: the Resume Document Store -/

/-- Claim C1: for every sequence of add/update/delete UpdateMessages, each
list-valued section of the resulting document is the in-order replay of the
sequence through that section's step; and, per step, add appends the
content, update replaces the entry whose id equals `entryId`, delete
removes it, while an update or delete whose `entryId` matches no entry
leaves the list unchanged (a silent no-op). -/
theorem C1_list_section_replay :
    (∀ (msgs : List UpdateMessage) (d : ResumeData),
      (replayUpdates d msgs).education = msgs.foldl eduStep d.education
      ∧ (replayUpdates d msgs).experience = msgs.foldl expStep d.experience
      ∧ (replayUpdates d msgs).contact = msgs.foldl contactStep d.contact
      ∧ (replayUpdates d msgs).skills = msgs.foldl skillStep d.skills
      ∧ (replayUpdates d msgs).customSections = msgs.foldl customStep d.customSections)
    ∧ (∀ (α : Type) (getId : α → String) (l : List α) (eid : String) (a : α),
      applyList getId l "add" eid (some a) = l ++ [a])
    ∧ (∀ (α : Type) (getId : α → String) (l₁ l₂ : List α) (e a : α) (eid : String),
      (∀ x ∈ l₁, getId x ≠ eid) → getId e = eid →
      applyList getId (l₁ ++ e :: l₂) "update" eid (some a) = l₁ ++ a :: l₂)
    ∧ (∀ (α : Type) (getId : α → String) (l : List α) (eid : String) (c : Option α),
      (∀ x ∈ l, getId x ≠ eid) → applyList getId l "update" eid c = l)
    ∧ (∀ (α : Type) (getId : α → String) (l₁ l₂ : List α) (e : α) (eid : String) (c : Option α),
      (∀ x ∈ l₁, getId x ≠ eid) → getId e = eid → (∀ x ∈ l₂, getId x ≠ eid) →
      applyList getId (l₁ ++ e :: l₂) "delete" eid c = l₁ ++ l₂)
    ∧ (∀ (α : Type) (getId : α → String) (l : List α) (eid : String) (c : Option α),
      (∀ x ∈ l, getId x ≠ eid) → applyList getId l "delete" eid c = l) := by
  refine ⟨fun msgs d => ⟨replay_education msgs d, replay_experience msgs d,
    replay_contact msgs d, replay_skills msgs d, replay_customSections msgs d⟩,
    fun α getId l eid a => applyList_add getId l eid a,
    fun α getId l₁ l₂ e a eid h1 he => applyList_update_found getId l₁ l₂ e a eid h1 he,
    fun α getId l eid c h => applyList_update_noMatch getId l eid c h,
    fun α getId l₁ l₂ e eid c h1 he h2 => applyList_delete_found getId l₁ l₂ e eid c h1 he h2,
    fun α getId l eid c h => applyList_delete_noMatch getId l eid c h⟩

/-- Witness for C1 at concrete inputs: replaying add, a matching update, a
non-matching update (no-op), a matching delete and a non-matching delete
(no-op) on the skills list. -/
theorem C1_list_section_replay_witness :
    applyList (fun s : Skill => s.id) [] "add" "skill_1" (some ⟨"skill_1", "Lean"⟩)
        = [⟨"skill_1", "Lean"⟩]
    ∧ applyList (fun s : Skill => s.id) ([] ++ ⟨"skill_1", "Lean"⟩ :: [⟨"skill_2", "C"⟩])
        "update" "skill_1" (some ⟨"skill_1", "Rust"⟩)
        = [] ++ ⟨"skill_1", "Rust"⟩ :: [⟨"skill_2", "C"⟩]
    ∧ applyList (fun s : Skill => s.id) [⟨"skill_1", "Lean"⟩] "update" "nope"
        (some ⟨"nope", "x"⟩) = [⟨"skill_1", "Lean"⟩]
    ∧ applyList (fun s : Skill => s.id) ([⟨"skill_2", "C"⟩] ++ ⟨"skill_1", "Lean"⟩ :: [])
        "delete" "skill_1" none = [⟨"skill_2", "C"⟩] ++ []
    ∧ applyList (fun s : Skill => s.id) [⟨"skill_1", "Lean"⟩] "delete" "nope" none
        = [⟨"skill_1", "Lean"⟩] := by
  refine ⟨C1_list_section_replay.2.1 _ _ _ _ _,
    C1_list_section_replay.2.2.1 _ _ _ _ _ _ _ (by decide) (by decide),
    C1_list_section_replay.2.2.2.1 _ _ _ _ _ (by decide),
    C1_list_section_replay.2.2.2.2.1 _ _ _ _ _ _ _ (by decide) (by decide) (by decide),
    C1_list_section_replay.2.2.2.2.2 _ _ _ _ _ (by decide)⟩

/-- Claim C10: for the singleton sections `name` and `aboutMe`, the store
replaces the stored value wholesale with the message content regardless of
`changeType`; in particular a delete message (content null) sets the value
to null rather than being a no-op or an error. -/
theorem C10_singleton_wholesale (d : ResumeData) (eid ct : String) (n : Name) (a : AboutMe) :
    (handleUpdate d ⟨"name", eid, ct, Content.nameC n⟩).name = some n
    ∧ (handleUpdate d ⟨"name", eid, ct, Content.null⟩).name = none
    ∧ (handleUpdate d ⟨"aboutMe", eid, ct, Content.aboutC a⟩).aboutMe = some a
    ∧ (handleUpdate d ⟨"aboutMe", eid, ct, Content.null⟩).aboutMe = none :=
  ⟨rfl, rfl, rfl, rfl⟩

/-! ### Claim theorems: id generation -/

theorem foldl_add_ids {α β : Type} (getId : α → String) (pfx : String)
    (step : List α → β × Nat → List α)
    (hstep : ∀ acc ev, step acc ev = acc
      ∨ ∃ a, getId a = genId pfx ev.2 ∧ step acc ev = acc ++ [a]) :
    ∀ (events : List (β × Nat)) (acc : List α),
      (acc.map getId).Pairwise (· ≠ ·) →
      (∀ e ∈ acc, ∀ ev ∈ events, getId e ≠ genId pfx ev.2) →
      (events.map Prod.snd).Pairwise (· ≠ ·) →
      ((events.foldl step acc).map getId).Pairwise (· ≠ ·) := by
  intro events
  induction events with
  | nil => intro acc h1 _ _; simpa using h1
  | cons ev rest ih =>
    intro acc h1 h2 h3
    simp only [List.map_cons, List.pairwise_cons] at h3
    simp only [List.foldl_cons]
    rcases hstep acc ev with hid | ⟨a, ha, hacc⟩
    · rw [hid]
      exact ih acc h1 (fun e he ev2 hev2 => h2 e he ev2 (List.mem_cons_of_mem _ hev2)) h3.2
    · rw [hacc]
      apply ih (acc ++ [a])
      · rw [List.map_append, List.pairwise_append]
        refine ⟨h1, by simp, ?_⟩
        intro x hx y hy
        simp only [List.map_cons, List.map_nil, List.mem_singleton] at hy
        subst hy
        rcases List.mem_map.mp hx with ⟨e, he, rfl⟩
        rw [ha]
        exact h2 e he ev (List.mem_cons_self _ _)
      · intro e he ev2 hev2
        rcases List.mem_append.mp he with he | he
        · exact h2 e he ev2 (List.mem_cons_of_mem _ hev2)
        · rw [List.mem_singleton] at he
          subst he
          rw [ha]
          intro hEq
          have hts : ev.2 = ev2.2 := genId_injective pfx hEq
          exact h3.1 ev2.2 (List.mem_map.mpr ⟨ev2, hev2, rfl⟩) hts
      · exact h3.2

theorem eduAddSession_step (acc : List Education) (ev : EduDraft × Nat) :
    (match handleAddEducation ev.1 ev.2 with
      | some m => applyList (fun e => e.id) acc m.changeType m.entryId m.content.asEdu
      | none => acc) = acc
    ∨ ∃ a, (fun e : Education => e.id) a = genId "edu_" ev.2
        ∧ (match handleAddEducation ev.1 ev.2 with
          | some m => applyList (fun e => e.id) acc m.changeType m.entryId m.content.asEdu
          | none => acc) = acc ++ [a] := by
  unfold handleAddEducation
  by_cases h : (ev.1.degree ≠ "" && ev.1.institution ≠ "") = true
  · rw [if_pos h]
    right
    exact ⟨_, rfl, applyList_add _ _ _ _⟩
  · rw [if_neg h]
    left; rfl

theorem skillAddSession_step (acc : List Skill) (ev : String × Nat) :
    (match handleAddSkill acc ev.1 ev.2 with
      | some m => applyList (fun s => s.id) acc m.changeType m.entryId m.content.asSkill
      | none => acc) = acc
    ∨ ∃ a, (fun s : Skill => s.id) a = genId "skill_" ev.2
        ∧ (match handleAddSkill acc ev.1 ev.2 with
          | some m => applyList (fun s => s.id) acc m.changeType m.entryId m.content.asSkill
          | none => acc) = acc ++ [a] := by
  unfold handleAddSkill
  by_cases h : (ev.1.trim ≠ ""
      && !(acc.any (fun s => s.skill.toLower = ev.1.trim.toLower))) = true
  · rw [if_pos h]
    right
    exact ⟨_, rfl, applyList_add _ _ _ _⟩
  · rw [if_neg h]
    left; rfl

/-- Claim C9: after any session of add operations whose creation timestamps
are pairwise distinct (the collision-exempt assumption granted by the
spec), no two entries in the same list share an id — shown for the
education and skills lists, whose ids are minted as `edu_` and `skill_`
prefixes on `Date.now()`. -/
theorem C9_generated_ids_unique :
    (∀ events : List (EduDraft × Nat),
      (events.map Prod.snd).Pairwise (· ≠ ·) →
      ((eduAddSession [] events).map (fun e => e.id)).Pairwise (· ≠ ·))
    ∧ (∀ events : List (String × Nat),
      (events.map Prod.snd).Pairwise (· ≠ ·) →
      ((skillAddSession [] events).map (fun s => s.id)).Pairwise (· ≠ ·)) := by
  constructor
  · intro events h3
    exact foldl_add_ids (fun e => e.id) "edu_" _
      (fun acc ev => eduAddSession_step acc ev) events [] (by simp) (by simp) h3
  · intro events h3
    exact foldl_add_ids (fun s => s.id) "skill_" _
      (fun acc ev => skillAddSession_step acc ev) events [] (by simp) (by simp) h3

/-- Witness for C9: two education adds and two skill adds at distinct
timestamps produce pairwise distinct ids. -/
theorem C9_generated_ids_unique_witness :
    ((eduAddSession [] [(⟨"BSc", "MIT", "", "", ""⟩, 1), (⟨"MA", "Yale", "", "", ""⟩, 2)]).map
      (fun e => e.id)).Pairwise (· ≠ ·)
    ∧ ((skillAddSession [] [("Lean", 10), ("Rust", 11)]).map
      (fun s => s.id)).Pairwise (· ≠ ·) :=
  ⟨C9_generated_ids_unique.1 _ (by decide), C9_generated_ids_unique.2 _ (by decide)⟩

/-! ### Claim theorems: the polish normalizer and merge -/

/-- A key value counted as a match by the spec wording: present and
non-empty. -/
def nonEmptyKey (o : Option String) : Option String :=
  match o with
  | some s => if s = "" then none else some s
  | none => none

/-- The normalizer as the spec words it for C4: try `polishedDescription`,
`description`, `summary`, `text` in that priority order and take the first
NON-EMPTY match as authoritative. -/
def specImprovedText (v : PV) : String :=
  match v with
  | PV.str _ => ""
  | PV.obj _ pd d s t =>
    ((((nonEmptyKey pd).or (nonEmptyKey d)).or (nonEmptyKey s)).or (nonEmptyKey t)).getD ""

/-- The response refuting C4 as stated: `polishedDescription` present but
empty, `description` = "X". -/
def c4resp : PolishResp :=
  { success := true
    message := none
    improvedContent := none
    content := none
    polishedDescription := some ""
    description := some "X"
    summary := none
    text := none }

/-- Claim C4 is false as stated: on an envelope whose higher-priority
`polishedDescription` key holds the empty string while `description` holds
"X", the spec's first-non-empty rule demands "X" but the code's `??` chain
(first present key) yields the empty string. -/
theorem C4_normalizer_counterexample :
    specImprovedText (normalizeEnvelope (envelopeOf c4resp)) = "X"
    ∧ improvedTextOf c4resp = ""
    ∧ improvedTextOf c4resp ≠ specImprovedText (normalizeEnvelope (envelopeOf c4resp)) := by
  decide

/-- Claim C4 (amended): the normalizer maps each accepted envelope shape to
a single improved-text value by trying the keys `polishedDescription`,
`description`, `summary`, `text` in that priority order and treating the
first PRESENT (non-null) match as authoritative — an empty string present
under a higher-priority key is taken as-is; in particular the envelopes
`{content:{description:X}}`, `{polishedDescription:X}` and `{summary:X}`
each yield improved text X. -/
theorem C4_normalizer_amended :
    (∀ X : String,
      improvedTextOf
        { success := true, message := none, improvedContent := none,
          content := some (PV.obj none none (some X) none none),
          polishedDescription := none, description := none,
          summary := none, text := none } = X
      ∧ improvedTextOf
        { success := true, message := none, improvedContent := none,
          content := none, polishedDescription := some X, description := none,
          summary := none, text := none } = X
      ∧ improvedTextOf
        { success := true, message := none, improvedContent := none,
          content := none, polishedDescription := none, description := none,
          summary := some X, text := none } = X)
    ∧ (∀ (c : Option PVLeaf) (a : String) (d s t : Option String),
      getImprovedText (PV.obj c (some a) d s t) = a)
    ∧ (∀ (c : Option PVLeaf) (b : String) (s t : Option String),
      getImprovedText (PV.obj c none (some b) s t) = b)
    ∧ (∀ (c : Option PVLeaf) (x : String) (t : Option String),
      getImprovedText (PV.obj c none none (some x) t) = x)
    ∧ (∀ (c : Option PVLeaf) (y : String),
      getImprovedText (PV.obj c none none none (some y)) = y)
    ∧ (∀ c : Option PVLeaf, getImprovedText (PV.obj c none none none none) = "") :=
  ⟨fun _ => ⟨rfl, rfl, rfl⟩, fun _ _ _ _ _ => rfl, fun _ _ _ _ => rfl,
    fun _ _ _ => rfl, fun _ _ => rfl, fun _ => rfl⟩

/-- A document with text to polish, used to refute C5 as stated. -/
def c5doc : ResumeData :=
  { initialData with aboutMe := some { description := "i like coding", polishedDescription := "" } }

/-- A successful polish response whose improved text is empty. -/
def c5resp : PolishResp :=
  { success := true
    message := none
    improvedContent := none
    content := none
    polishedDescription := some ""
    description := none
    summary := none
    text := none }

/-- Claim C5 is false as stated: on a successful response with empty
improved text the code signals no PolishError (the catch never runs) and
even auto-emits a submit trigger; the document is indeed left unchanged. -/
theorem C5_empty_polish_counterexample :
    (handlePolish c5doc "aboutMe" "about" 7 (FetchOutcome.response true 200 c5resp)).errored = false
    ∧ (handlePolish c5doc "aboutMe" "about" 7 (FetchOutcome.response true 200 c5resp)).trigger
        = some ⟨"aboutMe", "about", "update", 7⟩
    ∧ (handlePolish c5doc "aboutMe" "about" 7 (FetchOutcome.response true 200 c5resp)).doc
        = c5doc := by
  decide

/-- Claim C5 (amended): on a transport failure or a non-success status the
polish operation signals PolishError, performs no document mutation and
emits no trigger; a successful response with EMPTY improved text is not an
error — for the aboutMe, education, and experience sections the document
is left completely unchanged (descriptions keep their prior values), no
PolishError is signalled, and a submit trigger is still auto-emitted. -/
theorem C5_polish_failure_amended :
    (∀ (d : ResumeData) (sec eid : String) (t : Nat) (m : String),
      handlePolish d sec eid t (FetchOutcome.netError m) = ⟨d, true, none⟩)
    ∧ (∀ (d : ResumeData) (sec eid : String) (t status : Nat) (body : PolishResp),
      handlePolish d sec eid t (FetchOutcome.response false status body) = ⟨d, true, none⟩)
    ∧ (∀ (d : ResumeData) (sec eid : String) (t status : Nat) (body : PolishResp),
      body.success = false →
      handlePolish d sec eid t (FetchOutcome.response true status body) = ⟨d, true, none⟩)
    ∧ (∀ (d : ResumeData) (eid : String) (t status : Nat) (body : PolishResp),
      body.success = true → improvedTextOf body = "" →
      handlePolish d "aboutMe" eid t (FetchOutcome.response true status body)
        = ⟨d, false, some ⟨"aboutMe", eid, "update", t⟩⟩
      ∧ handlePolish d "education" eid t (FetchOutcome.response true status body)
        = ⟨d, false, some ⟨"education", eid, "update", t⟩⟩
      ∧ handlePolish d "experience" eid t (FetchOutcome.response true status body)
        = ⟨d, false, some ⟨"experience", eid, "update", t⟩⟩) := by
  refine ⟨fun d sec eid t m => rfl, fun d sec eid t status body => rfl,
    fun d sec eid t status body hs => ?_, fun d eid t status body hs hempty => ?_⟩
  · simp [handlePolish, hs]
  · have h1 : getImprovedText (normalizeEnvelope (envelopeOf body)) = "" := hempty
    refine ⟨?_, ?_, ?_⟩ <;>
      simp only [handlePolish, hs, h1, Bool.true_eq_false, if_false, reduceIte,
        ne_eq, not_true_eq_false] <;>
      split <;> simp_all <;> split <;> rfl

/-- Witness for C5 (amended): a rejected fetch, a success:false response
and an empty-improved-text success at concrete inputs. -/
theorem C5_polish_failure_amended_witness :
    handlePolish c5doc "education" "edu_1" 3 (FetchOutcome.netError "network down")
      = ⟨c5doc, true, none⟩
    ∧ handlePolish c5doc "aboutMe" "about" 4 (FetchOutcome.response true 200
        { success := false, message := some "bad", improvedContent := none, content := none,
          polishedDescription := none, description := none, summary := none, text := none })
      = ⟨c5doc, true, none⟩
    ∧ handlePolish c5doc "education" "edu_1" 5 (FetchOutcome.response true 200 c5resp)
      = ⟨c5doc, false, some ⟨"education", "edu_1", "update", 5⟩⟩ :=
  ⟨C5_polish_failure_amended.1 c5doc "education" "edu_1" 3 "network down",
    C5_polish_failure_amended.2.2.1 c5doc "aboutMe" "about" 4 200 _ rfl,
    (C5_polish_failure_amended.2.2.2 c5doc "edu_1" 5 200 c5resp rfl (by decide)).2.1⟩

theorem getElem?_append_length {α : Type} (l₁ l₂ : List α) (e : α) :
    (l₁ ++ e :: l₂)[l₁.length]? = some e := by
  rw [List.getElem?_append_right (Nat.le_refl _)]
  simp

theorem getElem_append_length {α : Type} (l₁ l₂ : List α) (e : α)
    (h : l₁.length < (l₁ ++ e :: l₂).length) :
    (l₁ ++ e :: l₂)[l₁.length] = e := by
  have h2 := getElem?_append_length l₁ l₂ e
  rw [List.getElem?_eq_getElem h] at h2
  exact Option.some.inj h2

/-- Claim C6: a successful polish with non-empty improved text sets both
`polishedDescription` and `description` of the target aboutMe, education,
or experience entry to the improved text, leaving everything else in
place, and auto-emits a SubmitTrigger for that section; for a
customSections entry the improved value overwrites only the `content`
field (no polishedDescription is written). -/
theorem C6_polish_success_merge :
    (∀ (d : ResumeData) (a : AboutMe) (eid : String) (t status : Nat) (body : PolishResp),
      body.success = true → improvedTextOf body ≠ "" → d.aboutMe = some a →
      handlePolish d "aboutMe" eid t (FetchOutcome.response true status body)
        = ⟨{ d with
              aboutMe := some ⟨improvedTextOf body, improvedTextOf body⟩ },
            false, some ⟨"aboutMe", eid, "update", t⟩⟩)
    ∧ (∀ (d : ResumeData) (l₁ l₂ : List Education) (e : Education) (eid : String)
        (t status : Nat) (body : PolishResp),
      body.success = true → improvedTextOf body ≠ "" →
      d.education = l₁ ++ e :: l₂ → (∀ x ∈ l₁, x.id ≠ eid) → e.id = eid →
      handlePolish d "education" eid t (FetchOutcome.response true status body)
        = ⟨{ d with
              education := l₁ ++
                { e with
                  description := improvedTextOf body,
                  polishedDescription := some (improvedTextOf body) } :: l₂ },
            false, some ⟨"education", eid, "update", t⟩⟩)
    ∧ (∀ (d : ResumeData) (l₁ l₂ : List Experience) (e : Experience) (eid : String)
        (t status : Nat) (body : PolishResp),
      body.success = true → improvedTextOf body ≠ "" →
      d.experience = l₁ ++ e :: l₂ → (∀ x ∈ l₁, x.id ≠ eid) → e.id = eid →
      handlePolish d "experience" eid t (FetchOutcome.response true status body)
        = ⟨{ d with
              experience := l₁ ++
                { e with
                  description := improvedTextOf body,
                  polishedDescription := some (improvedTextOf body) } :: l₂ },
            false, some ⟨"experience", eid, "update", t⟩⟩)
    ∧ (∀ (d : ResumeData) (l₁ l₂ : List CustomSection) (c : CustomSection) (eid : String)
        (t status : Nat) (body : PolishResp),
      body.success = true →
      customImproved (normalizeEnvelope (envelopeOf body)) (improvedTextOf body) ≠ "" →
      d.customSections = l₁ ++ c :: l₂ → (∀ x ∈ l₁, x.id ≠ eid) → c.id = eid →
      handlePolish d "customSections" eid t (FetchOutcome.response true status body)
        = ⟨{ d with
              customSections := l₁ ++
                { c with
                  content := customImproved (normalizeEnvelope (envelopeOf body))
                    (improvedTextOf body) } :: l₂ },
            false, some ⟨"customSections", eid, "update", t⟩⟩) := by
  refine ⟨?_, ?_, ?_, ?_⟩
  · intro d a eid t status body hs hne ha
    simp only [handlePolish, hs, Bool.true_eq_false, if_false, reduceIte, improvedTextOf] at *
    rw [ha]
    simp [hne]
  · intro d l₁ l₂ e eid t status body hs hne hdec hl1 he
    have hf : (l₁ ++ e :: l₂).findIdx? (fun x => x.id = eid) = some l₁.length :=
      findIdx?_first _ l₁ l₂ e (fun x hx => decide_eq_false (hl1 x hx)) (decide_eq_true he)
    simp only [handlePolish, hs, Bool.true_eq_false, if_false, reduceIte, improvedTextOf] at *
    rw [hdec, hf]
    simp [getElem?_append_length, hne, set_append_length, getElem_append_length]
  · intro d l₁ l₂ e eid t status body hs hne hdec hl1 he
    have hf : (l₁ ++ e :: l₂).findIdx? (fun x => x.id = eid) = some l₁.length :=
      findIdx?_first _ l₁ l₂ e (fun x hx => decide_eq_false (hl1 x hx)) (decide_eq_true he)
    simp only [handlePolish, hs, Bool.true_eq_false, if_false, reduceIte, improvedTextOf] at *
    rw [hdec, hf]
    simp [getElem?_append_length, hne, set_append_length, getElem_append_length]
  · intro d l₁ l₂ c eid t status body hs hne hdec hl1 he
    have hf : (l₁ ++ c :: l₂).findIdx? (fun x => x.id = eid) = some l₁.length :=
      findIdx?_first _ l₁ l₂ c (fun x hx => decide_eq_false (hl1 x hx)) (decide_eq_true he)
    simp only [handlePolish, hs, Bool.true_eq_false, if_false, reduceIte, improvedTextOf] at *
    rw [hdec, hf]
    simp [getElem?_append_length, hne, set_append_length, getElem_append_length]

/-- Witness for C6: the spec's own scenario — polishing aboutMe with the
envelope `{content:{polishedDescription:"I am a passionate software
engineer."}}` sets both fields and emits the aboutMe trigger; plus an
education polish at a found entry. -/
theorem C6_polish_success_merge_witness :
    handlePolish c5doc "aboutMe" "about" 9 (FetchOutcome.response true 200
        { success := true, message := none,
          improvedContent := none,
          content := some (PV.obj none (some "I am a passionate software engineer.") none none none),
          polishedDescription := none, description := none, summary := none, text := none })
      = ⟨{ c5doc with
            aboutMe := some ⟨"I am a passionate software engineer.",
              "I am a passionate software engineer."⟩ },
          false, some ⟨"aboutMe", "about", "update", 9⟩⟩
    ∧ handlePolish
        { initialData with education :=
            [⟨"edu_1", "BSc", "MIT", "", "", "draft text", none⟩] }
        "education" "edu_1" 11 (FetchOutcome.response true 200
        { success := true, message := none, improvedContent := none, content := none,
          polishedDescription := some "Polished text.", description := none,
          summary := none, text := none })
      = ⟨{ initialData with education :=
            [⟨"edu_1", "BSc", "MIT", "", "", "Polished text.", some "Polished text."⟩] },
          false, some ⟨"education", "edu_1", "update", 11⟩⟩ := by
  constructor
  · exact C6_polish_success_merge.1 c5doc _ "about" 9 200 _ rfl (by decide) rfl
  · have h := C6_polish_success_merge.2.1
      { initialData with education := [⟨"edu_1", "BSc", "MIT", "", "", "draft text", none⟩] }
      [] [] ⟨"edu_1", "BSc", "MIT", "", "", "draft text", none⟩ "edu_1" 11 200
      { success := true, message := none, improvedContent := none, content := none,
        polishedDescription := some "Polished text.", description := none,
        summary := none, text := none }
      rfl (by decide) rfl (by simp) rfl
    simpa using h

/-! ### Generator lemmas -/

theorem scrapeTemplate_cached (st : GenState) (o : FetchOutcome ScrapeBody)
    (h : st.isTemplateScraped = true) : scrapeTemplate st o = (st, []) := by
  simp [scrapeTemplate, h]

theorem scrapeTemplate_trace (st : GenState) (o : FetchOutcome ScrapeBody) :
    (scrapeTemplate st o).2 = [] ∨ (scrapeTemplate st o).2 = [Eff.scrapeReq] := by
  by_cases h : st.isTemplateScraped
  · left; simp [scrapeTemplate, h]
  · right
    rcases o with m | ⟨ok, status, body⟩
    · simp [scrapeTemplate, h]
    · by_cases hok : ok = false <;> by_cases hs : body.success = true <;>
        simp [scrapeTemplate, h, hok, hs]

theorem scrapeTemplate_trace_notScraped (st : GenState) (o : FetchOutcome ScrapeBody)
    (h : st.isTemplateScraped = false) : (scrapeTemplate st o).2 = [Eff.scrapeReq] := by
  rcases o with m | ⟨ok, status, body⟩
  · simp [scrapeTemplate, h]
  · by_cases hok : ok = false <;> by_cases hs : body.success = true <;>
      simp [scrapeTemplate, h, hok, hs]

theorem scrapeTemplate_isInitialized (st : GenState) (o : FetchOutcome ScrapeBody) :
    (scrapeTemplate st o).1.isInitialized = st.isInitialized := by
  by_cases h : st.isTemplateScraped
  · simp [scrapeTemplate, h]
  · rcases o with m | ⟨ok, status, body⟩
    · simp [scrapeTemplate, h]
    · by_cases hok : ok = false <;> by_cases hs : body.success = true <;>
        simp [scrapeTemplate, h, hok, hs]

theorem scrapeTemplate_flag (st : GenState) (o : FetchOutcome ScrapeBody)
    (h : st.isTemplateScraped = false) :
    (scrapeTemplate st o).1.isTemplateScraped = scrapeOk o := by
  rcases o with m | ⟨ok, status, body⟩
  · simp [scrapeTemplate, scrapeOk, h]
  · rcases ok with _ | _ <;> by_cases hs : body.success = true <;>
      simp [scrapeTemplate, scrapeOk, h, hs]

theorem initializeLatex_noScrape_noop (d : ResumeData) (st : GenState)
    (o1 : FetchOutcome ScrapeBody) (o2 : FetchOutcome LatexBody)
    (h : st.isTemplateScraped = false) : initializeLatex d st o1 o2 = (st, []) := by
  simp [initializeLatex, h]

theorem initializeLatex_trace (d : ResumeData) (st : GenState)
    (o1 : FetchOutcome ScrapeBody) (o2 : FetchOutcome LatexBody) :
    (initializeLatex d st o1 o2).2 = []
    ∨ (initializeLatex d st o1 o2).2
      = (scrapeTemplate { st with isUpdating := true, error := none } o1).2 ++ [headerReqOf d] := by
  unfold initializeLatex
  by_cases hg : (!hasData d || !st.isTemplateScraped) = true
  · left; simp [hg]
  · right
    rw [if_neg hg]
    rcases o2 with m | ⟨ok, status, body⟩
    · rfl
    · by_cases hok : ok = false
      · simp [hok]
      · by_cases hs : body.success = true ∧ body.latexCode ≠ "" <;> simp [hok, hs]

theorem initializeLatex_trace_noSection (d : ResumeData) (st : GenState)
    (o1 : FetchOutcome ScrapeBody) (o2 : FetchOutcome LatexBody) :
    ((initializeLatex d st o1 o2).2.all fun e => !isSectionReq e) = true := by
  rcases initializeLatex_trace d st o1 o2 with h | h <;> rw [h]
  · rfl
  · rcases scrapeTemplate_trace { st with isUpdating := true, error := none } o1 with h2 | h2 <;>
      rw [h2] <;> simp [isSectionReq, headerReqOf]

theorem initializeLatex_countHeader (d : ResumeData) (st : GenState)
    (o1 : FetchOutcome ScrapeBody) (o2 : FetchOutcome LatexBody)
    (hd : hasData d = true) (hsc : st.isTemplateScraped = true) :
    countHeader (initializeLatex d st o1 o2).2 = 1 := by
  rcases o2 with m | ⟨ok, status, body⟩
  · simp [initializeLatex, hd, hsc, scrapeTemplate_cached, countHeader, isHeaderReq, headerReqOf]
  · rcases ok with _ | _
    · simp [initializeLatex, hd, hsc, scrapeTemplate_cached, countHeader, isHeaderReq, headerReqOf]
    · by_cases hs : body.success = true ∧ body.latexCode ≠ "" <;>
        simp [initializeLatex, hd, hsc, scrapeTemplate_cached, countHeader, isHeaderReq,
          headerReqOf, hs]

theorem initializeLatex_success (d : ResumeData) (st : GenState)
    (o1 : FetchOutcome ScrapeBody) (status : Nat) (body : LatexBody)
    (hd : hasData d = true) (hsc : st.isTemplateScraped = true)
    (hok : body.success = true) (hcode : body.latexCode ≠ "") :
    (initializeLatex d st o1 (FetchOutcome.response true status body)).1.latexCode = body.latexCode
    ∧ (initializeLatex d st o1 (FetchOutcome.response true status body)).1.error = none
    ∧ (initializeLatex d st o1 (FetchOutcome.response true status body)).1.isInitialized = true := by
  simp [initializeLatex, hd, hsc, scrapeTemplate_cached, hok, hcode]

theorem initializeLatex_failure (d : ResumeData) (st : GenState)
    (o1 : FetchOutcome ScrapeBody) (o2 : FetchOutcome LatexBody)
    (hd : hasData d = true) (hsc : st.isTemplateScraped = true)
    (hfail : latexFetchFails o2 = true) :
    (initializeLatex d st o1 o2).1.error = some (headerFailMsg o2)
    ∧ (initializeLatex d st o1 o2).1.latexCode = st.latexCode := by
  rcases o2 with m | ⟨ok, status, body⟩
  · simp [initializeLatex, hd, hsc, scrapeTemplate_cached, headerFailMsg]
  · rcases ok with _ | _
    · simp [initializeLatex, hd, hsc, scrapeTemplate_cached, headerFailMsg]
    · simp only [latexFetchFails, Bool.not_true, Bool.false_or, Bool.or_eq_true,
        Bool.not_eq_true', decide_eq_true_eq] at hfail
      have hnot : ¬(body.success = true ∧ body.latexCode ≠ "") := by
        rcases hfail with h | h <;> simp [h]
      simp [initializeLatex, hd, hsc, scrapeTemplate_cached, headerFailMsg, hnot]

theorem initializeLatex_countSection (d : ResumeData) (st : GenState)
    (o1 : FetchOutcome ScrapeBody) (o2 : FetchOutcome LatexBody) :
    countSection (initializeLatex d st o1 o2).2 = 0 := by
  rcases initializeLatex_trace d st o1 o2 with h | h <;> rw [h]
  · rfl
  · rcases scrapeTemplate_trace { st with isUpdating := true, error := none } o1 with h2 | h2 <;>
      rw [h2] <;> simp [countSection, isSectionReq, headerReqOf]

/-! ### Claim theorems: Template Acquisition and Document Generator -/

/-- Claim C7: template acquisition is idempotent — starting unscraped, a
successful `scrapeTemplate` performs the underlying fetch once and caches;
the second call performs no fetch and returns the state unchanged, so the
two calls fetch exactly once; in general any call on a cached state
returns immediately with no fetch. -/
theorem C7_template_acquisition_idempotent (st : GenState) (o1 o2 : FetchOutcome ScrapeBody)
    (h0 : st.isTemplateScraped = false) (h1 : scrapeOk o1 = true) :
    (scrapeTemplate st o1).2 = [Eff.scrapeReq]
    ∧ (scrapeTemplate st o1).1.isTemplateScraped = true
    ∧ scrapeTemplate (scrapeTemplate st o1).1 o2 = ((scrapeTemplate st o1).1, [])
    ∧ countScrape ((scrapeTemplate st o1).2 ++ (scrapeTemplate (scrapeTemplate st o1).1 o2).2) = 1
    ∧ (∀ (st2 : GenState) (o : FetchOutcome ScrapeBody), st2.isTemplateScraped = true →
        scrapeTemplate st2 o = (st2, [])) := by
  have ht := scrapeTemplate_trace_notScraped st o1 h0
  have hflag : (scrapeTemplate st o1).1.isTemplateScraped = true := by
    rw [scrapeTemplate_flag st o1 h0, h1]
  have hc := scrapeTemplate_cached (scrapeTemplate st o1).1 o2 hflag
  refine ⟨ht, hflag, hc, ?_, fun st2 o h => scrapeTemplate_cached st2 o h⟩
  rw [ht, hc]
  simp [countScrape, isScrapeReq]

/-- Witness for C7: a fresh state, a successful scrape, then a second call
answered by a rejected fetch that is never issued. -/
theorem C7_template_acquisition_idempotent_witness :
    (scrapeTemplate initialGenState (FetchOutcome.response true 200 ⟨true, none⟩)).2
      = [Eff.scrapeReq]
    ∧ (scrapeTemplate initialGenState
        (FetchOutcome.response true 200 ⟨true, none⟩)).1.isTemplateScraped = true
    ∧ scrapeTemplate (scrapeTemplate initialGenState
          (FetchOutcome.response true 200 ⟨true, none⟩)).1 (FetchOutcome.netError "down")
        = ((scrapeTemplate initialGenState (FetchOutcome.response true 200 ⟨true, none⟩)).1, [])
    ∧ countScrape ((scrapeTemplate initialGenState
          (FetchOutcome.response true 200 ⟨true, none⟩)).2
        ++ (scrapeTemplate (scrapeTemplate initialGenState
            (FetchOutcome.response true 200 ⟨true, none⟩)).1 (FetchOutcome.netError "down")).2)
        = 1 :=
  ⟨(C7_template_acquisition_idempotent initialGenState
      (FetchOutcome.response true 200 ⟨true, none⟩) (FetchOutcome.netError "down") rfl rfl).1,
    (C7_template_acquisition_idempotent initialGenState
      (FetchOutcome.response true 200 ⟨true, none⟩) (FetchOutcome.netError "down") rfl rfl).2.1,
    (C7_template_acquisition_idempotent initialGenState
      (FetchOutcome.response true 200 ⟨true, none⟩) (FetchOutcome.netError "down") rfl rfl).2.2.1,
    (C7_template_acquisition_idempotent initialGenState
      (FetchOutcome.response true 200 ⟨true, none⟩) (FetchOutcome.netError "down") rfl rfl).2.2.2.1⟩

/-- Claim C2: a section-scope request arriving while the generator is
uninitialized never issues the section-specific request; the call is
redirected to the full/header generation operation — with the template
already scraped it is literally `initializeLatex`, discarding the
section payload and this call's own fetch outcomes — and when the document
is non-empty that full/header generation request is issued exactly once. -/
theorem C2_uninitialized_redirect (d : ResumeData) (st : GenState) (u : SubmitTrigger)
    (oS oiS : FetchOutcome ScrapeBody) (oSec oiH : FetchOutcome LatexBody)
    (h0 : st.isInitialized = false) :
    ((updateLatexSection d st u oS oSec oiS oiH).2.all fun e => !isSectionReq e) = true
    ∧ (st.isTemplateScraped = true →
        updateLatexSection d st u oS oSec oiS oiH = initializeLatex d st oiS oiH)
    ∧ (st.isTemplateScraped = true → hasData d = true →
        countHeader (updateLatexSection d st u oS oSec oiS oiH).2 = 1) := by
  have redirect : st.isTemplateScraped = true →
      updateLatexSection d st u oS oSec oiS oiH = initializeLatex d st oiS oiH := by
    intro hscr
    unfold updateLatexSection
    simp [hscr, h0]
  refine ⟨?_, redirect, ?_⟩
  · by_cases hscr : st.isTemplateScraped = true
    · rw [redirect hscr]
      exact initializeLatex_trace_noSection d st oiS oiH
    · have hscr2 : st.isTemplateScraped = false := by simpa using hscr
      have hinit0 : (scrapeTemplate st oS).1.isInitialized = false := by
        rw [scrapeTemplate_isInitialized, h0]
      unfold updateLatexSection
      simp only [hscr2, Bool.not_false, if_true, hinit0, List.all_append]
      rw [scrapeTemplate_trace_notScraped st oS hscr2]
      simp only [List.all_cons, List.all_nil, isSectionReq, Bool.not_false, Bool.and_true,
        Bool.true_and]
      exact initializeLatex_trace_noSection d _ oiS oiH
  · intro hscr hd
    rw [redirect hscr]
    exact initializeLatex_countHeader d st oiS oiH hd hscr

/-- Witness for C2: an uninitialized, already-scraped state; the section
submit for education is redirected to header generation. -/
theorem C2_uninitialized_redirect_witness :
    ((updateLatexSection initialData
        { initialGenState with isTemplateScraped := true }
        ⟨"education", "education", "update", 5⟩
        (FetchOutcome.netError "unused") (FetchOutcome.response true 200 ⟨true, "sec", none, ""⟩)
        (FetchOutcome.netError "unused2")
        (FetchOutcome.response true 200 ⟨true, "hdr", none, ""⟩)).2.all
      fun e => !isSectionReq e) = true
    ∧ updateLatexSection initialData
        { initialGenState with isTemplateScraped := true }
        ⟨"education", "education", "update", 5⟩
        (FetchOutcome.netError "unused") (FetchOutcome.response true 200 ⟨true, "sec", none, ""⟩)
        (FetchOutcome.netError "unused2")
        (FetchOutcome.response true 200 ⟨true, "hdr", none, ""⟩)
      = initializeLatex initialData { initialGenState with isTemplateScraped := true }
          (FetchOutcome.netError "unused2")
          (FetchOutcome.response true 200 ⟨true, "hdr", none, ""⟩) :=
  ⟨(C2_uninitialized_redirect initialData _ _ _ _ _ _ rfl).1,
    (C2_uninitialized_redirect initialData _ _ _ _ _ _ rfl).2.1 rfl⟩

/-- Claim C3: a failing section-scope generation while initialized (with a
scraped template and a non-empty document) issues the section request
exactly once, invokes the full/header generation exactly once before the
call settles, and the user-facing outcome is the full generation's: on its
success the fallback source is installed with no error; on its failure the
error is surfaced as a visible message and the previous source is kept —
the full generation is not retried. -/
theorem C3_section_failure_fallback (d : ResumeData) (st : GenState) (u : SubmitTrigger)
    (oS oiS : FetchOutcome ScrapeBody) (oSec oiH : FetchOutcome LatexBody)
    (hinit : st.isInitialized = true) (hscr : st.isTemplateScraped = true)
    (hd : hasData d = true) (hfail : latexFetchFails oSec = true) :
    countSection (updateLatexSection d st u oS oSec oiS oiH).2 = 1
    ∧ countHeader (updateLatexSection d st u oS oSec oiS oiH).2 = 1
    ∧ (∀ (status : Nat) (body : LatexBody),
        oiH = FetchOutcome.response true status body → body.success = true →
        body.latexCode ≠ "" →
        (updateLatexSection d st u oS oSec oiS oiH).1.latexCode = body.latexCode
        ∧ (updateLatexSection d st u oS oSec oiS oiH).1.error = none)
    ∧ (latexFetchFails oiH = true →
        (updateLatexSection d st u oS oSec oiS oiH).1.error = some (headerFailMsg oiH)
        ∧ (updateLatexSection d st u oS oSec oiS oiH).1.latexCode = st.latexCode) := by
  have key : updateLatexSection d st u oS oSec oiS oiH
      = ({ (initializeLatex d { st with isUpdating := true, error := none } oiS oiH).1 with
            isUpdating := false },
        Eff.sectionReq u.sectionName u.changeType (extractSection d u.sectionName)
          :: (initializeLatex d { st with isUpdating := true, error := none } oiS oiH).2) := by
    unfold updateLatexSection
    rcases oSec with m | ⟨ok, status, body⟩
    · simp [hscr, hinit]
    · rcases ok with _ | _
      · simp [hscr, hinit]
      · simp only [latexFetchFails, Bool.not_true, Bool.false_or, Bool.or_eq_true,
          Bool.not_eq_true', decide_eq_true_eq] at hfail
        have hnot : ¬(body.success = true ∧ body.latexCode ≠ "") := by
          rcases hfail with h | h <;> simp [h]
        simp [hscr, hinit, hnot]
  have hsc1 : GenState.isTemplateScraped { st with isUpdating := true, error := none } = true := hscr
  refine ⟨?_, ?_, ?_, ?_⟩
  · rw [key]
    simp only [countSection, List.filter_cons, isSectionReq, if_pos]
    have h0 := initializeLatex_countSection d { st with isUpdating := true, error := none } oiS oiH
    simp only [countSection] at h0
    simp [h0]
  · rw [key]
    have h1 := initializeLatex_countHeader d { st with isUpdating := true, error := none }
      oiS oiH hd hsc1
    simp only [countHeader] at h1 ⊢
    simp [List.filter_cons, isHeaderReq, h1]
  · intro status body hoiH hbs hbc
    subst hoiH
    have h2 := initializeLatex_success d { st with isUpdating := true, error := none }
      oiS status body hd hsc1 hbs hbc
    rw [key]
    exact ⟨h2.1, h2.2.1⟩
  · intro hfail2
    have h3 := initializeLatex_failure d { st with isUpdating := true, error := none }
      oiS oiH hd hsc1 hfail2
    rw [key]
    exact ⟨h3.1, h3.2⟩

/-- The document used in the C3 witness. -/
def c3doc : ResumeData :=
  { initialData with education := [⟨"edu_1", "BSc", "MIT", "", "", "", none⟩] }

/-- The initialized generator state used in the C3 witness. -/
def c3state : GenState :=
  { initialGenState with isTemplateScraped := true, isInitialized := true, latexCode := "old" }

/-- Witness for C3: an initialized state whose section fetch returns HTTP
500; the header fallback succeeds and its source is installed. -/
theorem C3_section_failure_fallback_witness :
    countSection (updateLatexSection c3doc c3state ⟨"experience", "experience", "update", 9⟩
        (FetchOutcome.netError "unused") (FetchOutcome.response false 500 ⟨false, "", none, "boom"⟩)
        (FetchOutcome.netError "unused2") (FetchOutcome.response true 200 ⟨true, "fallback", none, ""⟩)).2
      = 1
    ∧ countHeader (updateLatexSection c3doc c3state ⟨"experience", "experience", "update", 9⟩
        (FetchOutcome.netError "unused") (FetchOutcome.response false 500 ⟨false, "", none, "boom"⟩)
        (FetchOutcome.netError "unused2") (FetchOutcome.response true 200 ⟨true, "fallback", none, ""⟩)).2
      = 1
    ∧ (updateLatexSection c3doc c3state ⟨"experience", "experience", "update", 9⟩
        (FetchOutcome.netError "unused") (FetchOutcome.response false 500 ⟨false, "", none, "boom"⟩)
        (FetchOutcome.netError "unused2") (FetchOutcome.response true 200 ⟨true, "fallback", none, ""⟩)).1.latexCode
      = "fallback" :=
  ⟨(C3_section_failure_fallback c3doc c3state ⟨"experience", "experience", "update", 9⟩
      (FetchOutcome.netError "unused") (FetchOutcome.netError "unused2")
      (FetchOutcome.response false 500 ⟨false, "", none, "boom"⟩)
      (FetchOutcome.response true 200 ⟨true, "fallback", none, ""⟩) rfl rfl rfl rfl).1,
    (C3_section_failure_fallback c3doc c3state ⟨"experience", "experience", "update", 9⟩
      (FetchOutcome.netError "unused") (FetchOutcome.netError "unused2")
      (FetchOutcome.response false 500 ⟨false, "", none, "boom"⟩)
      (FetchOutcome.response true 200 ⟨true, "fallback", none, ""⟩) rfl rfl rfl rfl).2.1,
    ((C3_section_failure_fallback c3doc c3state ⟨"experience", "experience", "update", 9⟩
        (FetchOutcome.netError "unused") (FetchOutcome.netError "unused2")
        (FetchOutcome.response false 500 ⟨false, "", none, "boom"⟩)
        (FetchOutcome.response true 200 ⟨true, "fallback", none, ""⟩)
        rfl rfl rfl rfl).2.2.1 200 ⟨true, "fallback", none, ""⟩ rfl rfl (by decide)).1⟩

/-- The document used in the C8 counterexample (non-empty data). -/
def c8doc : ResumeData :=
  { initialData with name := some ⟨"Ada", "Lovelace"⟩ }

/-- Claim C8 is false as stated: a full/header generation call made while
the template has not been acquired does NOT trigger acquisition — it
returns immediately with an empty request trace (no scrape request, no
generation request) and leaves the state unchanged. -/
theorem C8_acquire_first_counterexample :
    hasData c8doc = true
    ∧ initialGenState.isTemplateScraped = false
    ∧ initializeLatex c8doc initialGenState (FetchOutcome.response true 200 ⟨true, none⟩)
        (FetchOutcome.response true 200 ⟨true, "src", none, ""⟩)
      = (initialGenState, []) := by
  refine ⟨rfl, rfl, ?_⟩
  exact initializeLatex_noScrape_noop c8doc initialGenState _ _ rfl

/-- Claim C8 (amended): a SECTION-scope call made while the template is not
acquired triggers acquisition first (the scrape request leads its trace)
and proceeds only after it completes or fails; a full/header call made
while the template is not acquired returns unchanged, performing neither
acquisition nor generation; and if the triggered acquisition fails on an
uninitialized state, no generation request is issued at all. -/
theorem C8_acquire_first_amended (d : ResumeData) (st : GenState) (u : SubmitTrigger)
    (oS oiS o1 : FetchOutcome ScrapeBody) (oSec oiH o2 : FetchOutcome LatexBody)
    (h0 : st.isTemplateScraped = false) :
    (updateLatexSection d st u oS oSec oiS oiH).2.head? = some Eff.scrapeReq
    ∧ initializeLatex d st o1 o2 = (st, [])
    ∧ (st.isInitialized = false → scrapeOk oS = false →
        (updateLatexSection d st u oS oSec oiS oiH).2 = [Eff.scrapeReq]) := by
  refine ⟨?_, initializeLatex_noScrape_noop d st o1 o2 h0, ?_⟩
  · unfold updateLatexSection
    simp only [h0, Bool.not_false, if_true]
    rw [scrapeTemplate_trace_notScraped st oS h0]
    by_cases hinit : (scrapeTemplate st oS).1.isInitialized = true
    · simp only [hinit, Bool.not_true, Bool.false_eq_true, if_false]
      rcases oSec with m | ⟨ok, status, body⟩
      · simp
      · by_cases hok : ok = false
        · simp [hok]
        · by_cases hs : body.success = true ∧ body.latexCode ≠ "" <;> simp [hok, hs]
    · simp [hinit]
  · intro hinit hso
    have hflag : (scrapeTemplate st oS).1.isTemplateScraped = false := by
      rw [scrapeTemplate_flag st oS h0, hso]
    have hinit0 : (scrapeTemplate st oS).1.isInitialized = false := by
      rw [scrapeTemplate_isInitialized, hinit]
    unfold updateLatexSection
    simp only [h0, Bool.not_false, if_true, hinit0]
    rw [scrapeTemplate_trace_notScraped st oS h0,
      initializeLatex_noScrape_noop d _ oiS oiH hflag]
    simp

/-- Witness for C8 (amended): a fresh state with a failing scrape — the
section submit issues exactly the scrape request and nothing else. -/
theorem C8_acquire_first_amended_witness :
    (updateLatexSection c8doc initialGenState ⟨"skills", "skills", "update", 2⟩
        (FetchOutcome.netError "offline") (FetchOutcome.response true 200 ⟨true, "sec", none, ""⟩)
        (FetchOutcome.netError "offline2")
        (FetchOutcome.response true 200 ⟨true, "hdr", none, ""⟩)).2.head?
      = some Eff.scrapeReq
    ∧ initializeLatex c8doc initialGenState (FetchOutcome.netError "offline")
        (FetchOutcome.response true 200 ⟨true, "hdr", none, ""⟩)
      = (initialGenState, [])
    ∧ (updateLatexSection c8doc initialGenState ⟨"skills", "skills", "update", 2⟩
        (FetchOutcome.netError "offline") (FetchOutcome.response true 200 ⟨true, "sec", none, ""⟩)
        (FetchOutcome.netError "offline2")
        (FetchOutcome.response true 200 ⟨true, "hdr", none, ""⟩)).2
      = [Eff.scrapeReq] :=
  ⟨(C8_acquire_first_amended c8doc initialGenState ⟨"skills", "skills", "update", 2⟩
      (FetchOutcome.netError "offline") (FetchOutcome.netError "offline2")
      (FetchOutcome.netError "offline")
      (FetchOutcome.response true 200 ⟨true, "sec", none, ""⟩)
      (FetchOutcome.response true 200 ⟨true, "hdr", none, ""⟩)
      (FetchOutcome.response true 200 ⟨true, "hdr", none, ""⟩) rfl).1,
    (C8_acquire_first_amended c8doc initialGenState ⟨"skills", "skills", "update", 2⟩
      (FetchOutcome.netError "offline") (FetchOutcome.netError "offline2")
      (FetchOutcome.netError "offline")
      (FetchOutcome.response true 200 ⟨true, "sec", none, ""⟩)
      (FetchOutcome.response true 200 ⟨true, "hdr", none, ""⟩)
      (FetchOutcome.response true 200 ⟨true, "hdr", none, ""⟩) rfl).2.1,
    (C8_acquire_first_amended c8doc initialGenState ⟨"skills", "skills", "update", 2⟩
      (FetchOutcome.netError "offline") (FetchOutcome.netError "offline2")
      (FetchOutcome.netError "offline")
      (FetchOutcome.response true 200 ⟨true, "sec", none, ""⟩)
      (FetchOutcome.response true 200 ⟨true, "hdr", none, ""⟩)
      (FetchOutcome.response true 200 ⟨true, "hdr", none, ""⟩) rfl).2.2 rfl rfl⟩

end Resume
